import Mathlib

/-!
Verification of the intent-detection and conversation-state core of
`agent.py` (functions `is_brief_ack`, `wants_handoff`, `_looks_like_yes`,
`_looks_like_no`, `answer_question`, and the word lists they use),
as a shallow embedding in Lean.

Strings are modelled by Lean `String` (a list of characters).  Python's
`str.strip()` is modelled as trimming the ASCII whitespace characters
space, tab, newline and carriage return from both ends; `str.lower()` as
character-wise ASCII lowercasing.  Both agree with Python on the ASCII
texts the word lists and the specification use.  The external OpenAI
call made by `answer_question` is modelled by an oracle value of type
`GenOutcome`: the call may raise (the exception is not caught by the
code), the returned response object may be malformed (extraction of
`resp.output[0].content[0].text` raises, which the code catches), or it
may yield a text.  A propagated Python exception is modelled by
`Except.error ()`.
-/

/-- Characters stripped by Python's `str.strip()` on the ASCII texts in scope. -/
def isSpaceChar (c : Char) : Bool :=
  c == ' ' || c == '\t' || c == '\n' || c == '\r'

/-- Drop trailing characters satisfying `p`. -/
def dropTrail (p : Char → Bool) (l : List Char) : List Char :=
  (l.reverse.dropWhile p).reverse

/-- Model of Python `s.strip()`. -/
def pyStrip (s : String) : String :=
  ⟨dropTrail isSpaceChar (s.data.dropWhile isSpaceChar)⟩

/-- Model of Python `s.lower()` (character-wise ASCII lowercasing). -/
def pyLower (s : String) : String :=
  ⟨s.data.map Char.toLower⟩

/-- Does the character list `s` start with the pattern `p`? -/
def headMatch : List Char → List Char → Bool
  | [], _ => true
  | _ :: _, [] => false
  | a :: as, b :: bs => a == b && headMatch as bs

/-- Does the pattern `p` occur somewhere in `s`?  (Model of Python `p in s`.) -/
def occursIn (p : List Char) : List Char → Bool
  | [] => headMatch p []
  | b :: bs => headMatch p (b :: bs) || occursIn p bs

/-- Model of Python substring test `p in s` on strings. -/
def strContains (p s : String) : Bool :=
  occursIn p.data s.data

/-- Model of Python `s.startswith(p)`. -/
def strStarts (p s : String) : Bool :=
  headMatch p.data s.data

/-- Model of Python `s.endswith("?")`. -/
def endsWithQ (s : String) : Bool :=
  match s.data.getLast? with
  | some c => c == '?'
  | none => false

/-- `YES_WORDS` from agent.py. -/
def YES_WORDS : List String :=
  ["yes", "yeah", "yep", "sure", "yes please", "please do",
   "that would be great", "ok", "okay", "sounds good"]

/-- `NO_WORDS` from agent.py. -/
def NO_WORDS : List String :=
  ["no", "nope", "nah", "not now", "not yet", "i\x27m good", "im good",
   "i am good", "i\x27m okay", "im okay"]

/-- The `ack_phrases` list inside `is_brief_ack` in agent.py. -/
def ack_phrases : List String :=
  ["thanks", "thank you", "thx", "ok", "okay", "got it", "that helps",
   "perfect", "sounds good", "awesome", "great", "cool", "sweet",
   "appreciate it"]

/-- `is_brief_ack` from agent.py. -/
def is_brief_ack (message : String) : Bool :=
  let txt := pyLower (pyStrip message)
  if txt == "" then false
  else if txt.length > 30 then false
  else ack_phrases.contains txt

/-- The `explicit_triggers` list inside `wants_handoff` in agent.py. -/
def explicit_triggers : List String :=
  ["can i leave my info", "can i give you my info", "can i give u my info",
   "take my info", "take my information", "i want to give you my info",
   "i want to leave my info", "i want to give u my info",
   "i want to give u info", "leave my info", "leave my information",
   "give you my info", "give u my info", "share my info", "pass my info",
   "give my info", "give my information", "here is my info",
   "here\x27s my info", "talk to a human", "speak to a human",
   "have someone call me", "have somebody call me",
   "have the office call me", "call me back", "can someone call me",
   "can somebody call me"]

/-- The `inquiry_words` list inside `wants_handoff` in agent.py. -/
def inquiry_words : List String :=
  ["offer", "offers", "do you have", "do you do", "price", "prices",
   "cost", "hours", "open", "close", "location", "where are you",
   "emergency", "tooth", "pain", "insurance", "whitening", "cleaning",
   "cleanings"]

/-- The info-word list of the looser rule inside `wants_handoff`. -/
def info_words : List String :=
  ["info", "information", "details", "contact"]

/-- The giving-verb list of the looser rule inside `wants_handoff`. -/
def giving_verbs : List String :=
  ["leave", "give", "share", "pass", "provide", "send", "take"]

/-- `wants_handoff` from agent.py. -/
def wants_handoff (message : String) : Bool :=
  let txt := pyLower (pyStrip message)
  if txt == "" then false
  else if txt == "info" || txt == "my info" then true
  else if explicit_triggers.any (fun p => strContains p txt) then true
  else if endsWithQ txt then false
  else if inquiry_words.any (fun w => strContains w txt) then false
  else if info_words.any (fun w => strContains w txt) then
    giving_verbs.any (fun v => strContains v txt)
  else false

/-- `_looks_like_yes` from agent.py. -/
def looks_like_yes (txt : String) : Bool :=
  let t := pyLower (pyStrip txt)
  if t == "" then false
  else YES_WORDS.any (fun w => t == w || strStarts (w ++ " ") t)

/-- `_looks_like_no` from agent.py. -/
def looks_like_no (txt : String) : Bool :=
  let t := pyLower (pyStrip txt)
  if t == "" then false
  else NO_WORDS.any (fun w => t == w || strStarts (w ++ " ") t)

/-- The sentinel token returned to trigger the lead-collection flow. -/
def SENTINEL : String := "__TRIGGER_LEAD_FLOW__"

/-- The decline reply returned on a negative confirmation answer. -/
def DECLINE : String :=
  "No problem at all — if you change your mind later, just let me know and I can have the team reach out."

/-- The fixed thank-you reply for a brief acknowledgement. -/
def ACK_REPLY : String :=
  "You’re very welcome! 😊 If you have any other questions, just ask."

/-- The fixed apology returned when extracting text from the response fails. -/
def APOLOGY : String :=
  "I\x27m sorry, something went wrong generating a reply. Please try again."

/-- The callback-offer sentence appended on the pain/appointment path. -/
def CALLBACK_OFFER : String :=
  "\n\nIf you\x27d like, I can have the team give you a call to help with this — just reply \x27yes\x27 and I\x27ll collect your phone number."

/-- The `pain_keywords` list from `answer_question` in agent.py. -/
def pain_keywords : List String :=
  ["pain", "hurts", "hurt", "ache", "aching", "injury", "injured",
   "emergency", "swollen", "swelling", "can\x27t sleep", "cant sleep",
   "stiff", "spasm", "spasms", "numb", "numbness", "tingling", "tingly"]

/-- The `appointment_keywords` list from `answer_question` in agent.py. -/
def appointment_keywords : List String :=
  ["appointment", "appt", "appts", "visit", "come in", "come by",
   "see someone", "see the doctor", "see the dentist",
   "see the chiropractor", "see the chiro", "schedule", "book"]

/-- The `looks_like_pain_or_appt` test from `answer_question` in agent.py,
on the already stripped-and-lowercased message. -/
def pain_or_appt (lower : String) : Bool :=
  (pain_keywords ++ appointment_keywords).any (fun k => strContains k lower)

/-- Oracle outcome of the external OpenAI generation call in
`answer_question`: the `client.responses.create` call itself raises
(`raises`, not caught by the code), the extraction of
`resp.output[0].content[0].text` raises (`malformed`, caught by the
try/except), or a text is extracted (`ok`). -/
inductive GenOutcome where
  | raises
  | malformed
  | ok (text : String)
deriving DecidableEq

/-- `answer_question` from agent.py, with the global flag
`AWAITING_LEAD_CONFIRM` passed and returned explicitly and the external
generation call abstracted into a `GenOutcome` oracle.  The result is
`(reply, new flag)`, where an uncaught Python exception is modelled as
`Except.error ()`. -/
def answer_question (gen : GenOutcome) (awaiting : Bool) (question : String) :
    Except Unit String × Bool :=
  let raw_txt := question
  let lower_txt := pyLower (pyStrip raw_txt)
  if awaiting && looks_like_yes lower_txt then
    (Except.ok SENTINEL, false)
  else if awaiting && looks_like_no lower_txt then
    (Except.ok DECLINE, false)
  else if is_brief_ack raw_txt then
    (Except.ok ACK_REPLY, false)
  else if wants_handoff raw_txt then
    (Except.ok SENTINEL, false)
  else
    match gen with
    | GenOutcome.raises => (Except.error (), false)
    | GenOutcome.malformed => (Except.ok APOLOGY, false)
    | GenOutcome.ok text =>
      let answer := pyStrip text
      if pain_or_appt lower_txt && !(wants_handoff raw_txt) then
        (Except.ok (answer ++ CALLBACK_OFFER), true)
      else
        (Except.ok answer, false)

/-- Did a call with this flag and message fall through to the generation
step (neither consumed as a pending yes/no nor answered as an
acknowledgement nor a handoff)? -/
def tookGenPath (awaiting : Bool) (q : String) : Bool :=
  !(awaiting && looks_like_yes (pyLower (pyStrip q))) &&
  !(awaiting && looks_like_no (pyLower (pyStrip q))) &&
  !(is_brief_ack q) && !(wants_handoff q)

/-- Lowercasing preserves the character count. -/
theorem pyLower_length (s : String) : (pyLower s).length = s.length := by
  cases s with
  | mk l => simp [pyLower, String.length_mk]

/-- C4: `wants_handoff` returns true on "info", "can I leave my info" and
"I want to give you my info", and false on "what are your hours?" and on
"do you have whitening info" (the inquiry word suppresses the loose
info-word-plus-giving-verb heuristic even though the text contains
"info"). -/
theorem C4_wants_handoff_values :
    wants_handoff "info" = true ∧
    wants_handoff "can I leave my info" = true ∧
    wants_handoff "I want to give you my info" = true ∧
    wants_handoff "what are your hours?" = false ∧
    wants_handoff "do you have whitening info" = false := by
  refine ⟨?_, ?_, ?_, ?_, ?_⟩ <;> decide

/-- C7: for the message "take my information", with the flag clear or
set, `answer_question` returns exactly the sentinel token
`__TRIGGER_LEAD_FLOW__` with no surrounding or extra characters. -/
theorem C7_take_my_information_sentinel (gen : GenOutcome) :
    answer_question gen false "take my information" = (Except.ok SENTINEL, false) ∧
    answer_question gen true "take my information" = (Except.ok SENTINEL, false) ∧
    SENTINEL = "__TRIGGER_LEAD_FLOW__" :=
  ⟨rfl, rfl, rfl⟩

/-- C9: "ok", "okay" and "sounds good" are in both the affirmative list
and the acknowledgement list; while the flag is set they are treated as
affirmative (lead-flow sentinel), never as acknowledgements, and only
from the idle state do they get the fixed thank-you reply. -/
theorem C9_shared_words_priority (gen : GenOutcome) :
    answer_question gen true "ok" = (Except.ok SENTINEL, false) ∧
    answer_question gen true "okay" = (Except.ok SENTINEL, false) ∧
    answer_question gen true "sounds good" = (Except.ok SENTINEL, false) ∧
    answer_question gen false "ok" = (Except.ok ACK_REPLY, false) ∧
    answer_question gen false "okay" = (Except.ok ACK_REPLY, false) ∧
    answer_question gen false "sounds good" = (Except.ok ACK_REPLY, false) ∧
    YES_WORDS.contains "ok" = true ∧
    YES_WORDS.contains "okay" = true ∧
    YES_WORDS.contains "sounds good" = true ∧
    ack_phrases.contains "ok" = true ∧
    ack_phrases.contains "okay" = true ∧
    ack_phrases.contains "sounds good" = true ∧
    SENTINEL ≠ ACK_REPLY := by
  refine ⟨rfl, rfl, rfl, rfl, rfl, rfl, ?_, ?_, ?_, ?_, ?_, ?_, ?_⟩ <;> decide

/-- C3: while the flag is set, "yes" returns the sentinel and clears the
flag, "no thanks" returns the decline string and clears the flag, and
any other message (e.g. "what are your hours?", which is neither
affirmative nor negative) is classified exactly as it would be from the
idle state, with the same message. -/
theorem C3_confirmation_roundtrip (gen : GenOutcome) (q : String) :
    answer_question gen true "yes" = (Except.ok SENTINEL, false) ∧
    answer_question gen true "no thanks" = (Except.ok DECLINE, false) ∧
    answer_question gen true "what are your hours?" =
      answer_question gen false "what are your hours?" ∧
    (answer_question gen true "what are your hours?").snd = false ∧
    looks_like_yes "what are your hours?" = false ∧
    looks_like_no "what are your hours?" = false ∧
    answer_question gen true q =
      (if looks_like_yes (pyLower (pyStrip q)) then (Except.ok SENTINEL, false)
       else if looks_like_no (pyLower (pyStrip q)) then (Except.ok DECLINE, false)
       else answer_question gen false q) := by
  refine ⟨rfl, rfl, ?_, ?_, by decide, by decide, ?_⟩
  · cases gen <;> rfl
  · cases gen <;> rfl
  · by_cases h1 : looks_like_yes (pyLower (pyStrip q)) = true <;>
      by_cases h2 : looks_like_no (pyLower (pyStrip q)) = true <;>
        simp [answer_question, h1, h2]

/-- C8: an acknowledgement message from the idle state is idempotent:
two consecutive calls with the same acknowledged message both return the
fixed thank-you reply and leave the flag clear. -/
theorem C8_ack_idempotent (gen1 gen2 : GenOutcome) (m : String)
    (h : is_brief_ack m = true) :
    answer_question gen1 false m = (Except.ok ACK_REPLY, false) ∧
    answer_question gen2 (answer_question gen1 false m).snd m =
      (Except.ok ACK_REPLY, false) := by
  have h1 : answer_question gen1 false m = (Except.ok ACK_REPLY, false) := by
    simp [answer_question, h]
  refine ⟨h1, ?_⟩
  rw [h1]
  simp [answer_question, h]

/-- Witness for C8 at the concrete acknowledgement "thanks". -/
theorem C8_ack_idempotent_witness :
    answer_question GenOutcome.raises false "thanks" = (Except.ok ACK_REPLY, false) ∧
    answer_question GenOutcome.malformed
        (answer_question GenOutcome.raises false "thanks").snd "thanks" =
      (Except.ok ACK_REPLY, false) :=
  C8_ack_idempotent GenOutcome.raises GenOutcome.malformed "thanks" (by decide)

/-- C1 counterexample: when the generation call itself raises, the error
propagates (`Except.error ()`) instead of the apology being returned,
and when the extracted output text is empty the empty string is returned
as the answer, not the apology. -/
theorem C1_counterexample :
    (answer_question GenOutcome.raises false "what are your hours?").fst =
      Except.error () ∧
    (answer_question GenOutcome.raises false "what are your hours?").fst ≠
      Except.ok APOLOGY ∧
    (answer_question (GenOutcome.ok "") false "what are your hours?").fst =
      Except.ok "" ∧
    "" ≠ APOLOGY := by
  refine ⟨rfl, ?_, rfl, by decide⟩
  intro h
  exact Except.noConfusion h

/-- C1 amended: only a malformed generation response (extraction of the
text raises) is caught and replaced by the fixed apology string, with
the flag left clear; an exception from the generation call itself
propagates, and an empty output text is returned as-is. -/
theorem C1_malformed_apology (awaiting : Bool) (q : String)
    (hyes : (awaiting && looks_like_yes (pyLower (pyStrip q))) = false)
    (hno : (awaiting && looks_like_no (pyLower (pyStrip q))) = false)
    (hack : is_brief_ack q = false)
    (hhand : wants_handoff q = false) :
    (answer_question GenOutcome.malformed awaiting q).fst = Except.ok APOLOGY ∧
    (answer_question GenOutcome.malformed awaiting q).snd = false := by
  simp [answer_question, hyes, hno, hack, hhand]

/-- Witness for the amended C1 at a concrete message that reaches the
generation step. -/
theorem C1_malformed_apology_witness :
    (answer_question GenOutcome.malformed false "what are your hours?").fst =
      Except.ok APOLOGY ∧
    (answer_question GenOutcome.malformed false "what are your hours?").snd =
      false :=
  C1_malformed_apology false "what are your hours?" (by decide) (by decide)
    (by decide) (by decide)

/-- C2: the flag is set on exit exactly when the call fell through to
the generation step, the generation succeeded, the original message has
a pain/urgency or appointment/scheduling keyword, and `wants_handoff` is
false on the message; in exactly that case the callback-offer sentence
is appended to the generated answer. -/
theorem C2_flag_iff_callback (gen : GenOutcome) (awaiting : Bool) (q : String) :
    ((answer_question gen awaiting q).snd = true ↔
      (tookGenPath awaiting q = true ∧ (∃ t, gen = GenOutcome.ok t) ∧
       pain_or_appt (pyLower (pyStrip q)) = true ∧ wants_handoff q = false)) ∧
    ((answer_question gen awaiting q).snd = true →
      ∃ t, gen = GenOutcome.ok t ∧
        (answer_question gen awaiting q).fst =
          Except.ok (pyStrip t ++ CALLBACK_OFFER)) := by
  unfold answer_question tookGenPath
  cases awaiting <;> cases gen <;>
    by_cases h1 : looks_like_yes (pyLower (pyStrip q)) = true <;>
    by_cases h2 : looks_like_no (pyLower (pyStrip q)) = true <;>
    by_cases h3 : is_brief_ack q = true <;>
    by_cases h4 : wants_handoff q = true <;>
    by_cases h5 : pain_or_appt (pyLower (pyStrip q)) = true <;>
    simp_all

/-- No explicit trigger phrase occurs in the empty text. -/
theorem explicit_triggers_not_in_empty :
    explicit_triggers.any (fun p => strContains p "") = false := by decide

/-- C5: the exact-match rule and the explicit-phrase rule of
`wants_handoff` hold unconditionally, before the question-mark and
inquiry-word short-circuits; those short-circuits only block the looser
info-word-plus-giving-verb heuristic (illustrated on the concrete
conjuncts). -/
theorem C5_rules_unconditional (q : String)
    (h : pyLower (pyStrip q) = "info" ∨ pyLower (pyStrip q) = "my info" ∨
         explicit_triggers.any (fun p => strContains p (pyLower (pyStrip q))) = true) :
    wants_handoff q = true ∧
    wants_handoff "can i provide my details" = true ∧
    wants_handoff "can i provide my details?" = false ∧
    wants_handoff "i want to provide details about my pain" = false := by
  refine ⟨?_, by decide, by decide, by decide⟩
  rcases h with h | h | h
  · simp [wants_handoff, h]
  · simp [wants_handoff, h]
  · have hne : ¬(pyLower (pyStrip q) = "") := by
      intro h0
      rw [h0] at h
      rw [explicit_triggers_not_in_empty] at h
      exact Bool.false_ne_true h
    by_cases h12 : (pyLower (pyStrip q) == "info" || pyLower (pyStrip q) == "my info") = true
    · simp [wants_handoff, hne, h12]
    · simp [wants_handoff, hne, h12, h]

/-- Witness for C5 at a message that contains an explicit handoff
phrase while also ending with a question mark and containing inquiry
words. -/
theorem C5_rules_unconditional_witness :
    wants_handoff "I have tooth pain, call me back?" = true ∧
    wants_handoff "can i provide my details" = true ∧
    wants_handoff "can i provide my details?" = false ∧
    wants_handoff "i want to provide details about my pain" = false :=
  C5_rules_unconditional "I have tooth pain, call me back?"
    (Or.inr (Or.inr (by decide)))

/-- C6: `is_brief_ack` is true exactly when the stripped lowercased text
is one of the fixed acknowledgement phrases and the stripped text is at
most 30 characters; every list entry is accepted (also with case and
surrounding whitespace changed), and appending extra words rejects. -/
theorem C6_is_brief_ack_iff (m : String) :
    (is_brief_ack m = true ↔
      (ack_phrases.contains (pyLower (pyStrip m)) = true ∧
       (pyStrip m).length ≤ 30)) ∧
    ack_phrases.all (fun p => is_brief_ack p) = true ∧
    is_brief_ack "  THANKS  " = true ∧
    is_brief_ack "thanks, also..." = false := by
  refine ⟨?_, by decide, by decide, by decide⟩
  have hlen : (pyLower (pyStrip m)).length = (pyStrip m).length := pyLower_length _
  by_cases h0 : (pyLower (pyStrip m) == "") = true
  · have h0' : pyLower (pyStrip m) = "" := by
      exact eq_of_beq h0
    have hni : ("" : String) ∉ ack_phrases := by decide
    simp [is_brief_ack, h0', hni]
  · by_cases h30 : (pyLower (pyStrip m)).length > 30
    · have h30' : ¬((pyStrip m).length ≤ 30) := by omega
      simp [is_brief_ack, h0, h30, h30']
    · have h30' : (pyStrip m).length ≤ 30 := by omega
      simp [is_brief_ack, h0, h30, h30']

/-- C10: whenever `answer_question` returns the lead-flow sentinel, the
confirmation flag is clear on exit, so lead collection never starts with
a stale pending yes/no confirmation. -/
theorem C10_sentinel_clears_flag (gen : GenOutcome) (awaiting : Bool) (q : String)
    (h : (answer_question gen awaiting q).fst = Except.ok SENTINEL) :
    (answer_question gen awaiting q).snd = false := by
  cases gen with
  | raises =>
    simp only [answer_question]
    split_ifs <;> rfl
  | malformed =>
    simp only [answer_question]
    split_ifs <;> rfl
  | ok text =>
    simp only [answer_question] at h ⊢
    split_ifs at h ⊢ <;> try rfl
    exfalso
    have heq : pyStrip text ++ CALLBACK_OFFER = SENTINEL := by
      simpa using h
    have hl := congrArg String.length heq
    rw [String.length_append] at hl
    have hcb : CALLBACK_OFFER.length = 125 := rfl
    have hs : SENTINEL.length = 21 := rfl
    omega

/-- Witness for C10 at a handoff message returning the sentinel. -/
theorem C10_sentinel_clears_flag_witness :
    (answer_question GenOutcome.raises false "info").snd = false :=
  C10_sentinel_clears_flag GenOutcome.raises false "info" rfl
